import Mathlib

/- Shallow embedding of the documentation-extraction pipeline implemented in
   src/src/ansibleschemas/__main__.py: the type mapper map_type, the
   per-module extractor dump_module_doc, and the batch orchestrator doc_dump.
   Python dictionaries produced by json.loads are modelled as
   insertion-ordered association lists; the Python standard-library pieces
   the source calls (json.loads, subprocess.check_output, glob, os.remove,
   file writes) are modelled explicitly below, next to their call sites. -/

/-- JSON values as handled by the Python json module: objects keep insertion
    order as association lists; numbers are modelled as integers. -/
inductive JValue where
  | null
  | bool (b : Bool)
  | num (n : Int)
  | str (s : String)
  | arr (elems : List JValue)
  | obj (fields : List (String × JValue))

/-- Lowercase hexadecimal digit, used by the string-escape model. -/
def toHexDigit (n : Nat) : Char :=
  if n < 10 then Char.ofNat (48 + n) else Char.ofNat (87 + n)

/-- Four-digit lowercase hexadecimal escape, as emitted by Python json's
    default ensure_ascii=True encoder. -/
def uEsc (n : Nat) : String :=
  "\\u" ++ String.mk [toHexDigit (n / 4096 % 16), toHexDigit (n / 256 % 16),
    toHexDigit (n / 16 % 16), toHexDigit (n % 16)]

/-- Escape of one character inside a JSON string literal, following Python
    json.dumps with ensure_ascii=True: printable ASCII other than quote and
    backslash is kept, everything else is escaped (astral code points as a
    surrogate pair). -/
def escChar (c : Char) : String :=
  if c = '"' then "\\\""
  else if c = '\\' then "\\\\"
  else if c = '\n' then "\\n"
  else if c = '\r' then "\\r"
  else if c = '\t' then "\\t"
  else if c.toNat = 8 then "\\b"
  else if c.toNat = 12 then "\\f"
  else if 32 ≤ c.toNat && c.toNat ≤ 126 then String.singleton c
  else if c.toNat < 65536 then uEsc c.toNat
  else uEsc (55296 + (c.toNat - 65536) / 1024) ++ uEsc (56320 + (c.toNat - 65536) % 1024)

/-- JSON string literal rendering. -/
def quoteJStr (s : String) : String :=
  "\"" ++ String.join (s.data.map escChar) ++ "\""

/-- Indentation of 2*d spaces for nesting depth d (json.dumps indent=2). -/
def indentStr (d : Nat) : String := String.mk (List.replicate (2 * d) ' ')

/-- Indent every rendered member to depth d and join with comma-newline. -/
def joinInd (d : Nat) (items : List String) : String :=
  String.intercalate ",\n" (items.map (fun s => indentStr d ++ s))

/-- Insert one rendered object member into a key-sorted list, keeping the
    insertion stable for equal keys. -/
def insertPair (p : String × String) : List (String × String) → List (String × String)
  | [] => [p]
  | q :: rest => if p.1 ≤ q.1 then p :: q :: rest else q :: insertPair p rest

/-- Stable sort of rendered object members by key, modelling
    json.dumps sort_keys=True. -/
def sortPairs : List (String × String) → List (String × String)
  | [] => []
  | p :: rest => insertPair p (sortPairs rest)

mutual
/-- Embedding of Python json.dumps(value, indent=2, sort_keys=True), rendering
    a value that sits at nesting depth d.  Members of an object are rendered
    first and then sorted by key; since rendering a member does not depend on
    its position, this agrees with sorting first and rendering after, which is
    what sort_keys=True does. -/
def dumpVal : Nat → JValue → String
  | _, JValue.null => "null"
  | _, JValue.bool b => if b then "true" else "false"
  | _, JValue.num n => toString n
  | _, JValue.str s => quoteJStr s
  | _, JValue.arr [] => "[]"
  | d, JValue.arr (x :: xs) =>
      "[\n" ++ joinInd (d + 1) (dumpElems (d + 1) (x :: xs)) ++ "\n" ++ indentStr d ++ "]"
  | _, JValue.obj [] => "\x7b\x7d"
  | d, JValue.obj (f :: fs) =>
      "\x7b\n" ++
        joinInd (d + 1)
          ((sortPairs (dumpPairs (d + 1) (f :: fs))).map
            (fun p => quoteJStr p.1 ++ ": " ++ p.2)) ++
        "\n" ++ indentStr d ++ "\x7d"

/-- Render each array element at depth d. -/
def dumpElems : Nat → List JValue → List String
  | _, [] => []
  | d, x :: xs => dumpVal d x :: dumpElems d xs

/-- Render each object member's value at depth d, keeping the key. -/
def dumpPairs : Nat → List (String × JValue) → List (String × String)
  | _, [] => []
  | d, f :: fs => (f.1, dumpVal d f.2) :: dumpPairs d fs
end

/-- Embedding of json.dumps(data, indent=2, sort_keys=True) at top level. -/
def jsonDumps (v : JValue) : String := dumpVal 0 v

/-- Embedding of map_type from src/src/ansibleschemas/__main__.py: the JSON
    Schema type for a given Ansible type.  The raised NotImplementedError is
    modelled as Except.error carrying the exception message. -/
def map_type (ansible_type : String) : Except String String :=
  if ansible_type ∈ ["str", "filename", "path", "raw", "sid"] then Except.ok "string"
  else if ansible_type = "list" then Except.ok "array"
  else if ansible_type = "bool" then Except.ok "boolean"
  else if ansible_type = "int" then Except.ok "integer"
  else if ansible_type ∈ ["dict", "jsonarg", "json"] then Except.ok "object"
  else if ansible_type = "float" then Except.ok "number"
  else Except.error ("Unable to map ansible type " ++ ansible_type ++ " to JSON Schema type.")

/-- The twelve Ansible type tags recognised by map_type. -/
def ansibleTypeTags : List String :=
  ["str", "filename", "path", "raw", "sid", "list", "bool", "int", "dict", "jsonarg", "json", "float"]

/-- Python dict lookup data[k] on an association list (keys are unique in a
    dict, so first match suffices). -/
def lookupKey (fields : List (String × JValue)) (k : String) : Option JValue :=
  (fields.find? (fun p => p.1 == k)).map (fun p => p.2)

/-- Python dict.pop(k, None): remove the entry for k if present, keeping the
    order of the remaining entries; absence is a no-op. -/
def popKey (fields : List (String × JValue)) (k : String) : List (String × JValue) :=
  fields.filter (fun p => !(p.1 == k))

/-- In-place update of the value stored under an existing key, as mutating
    data[k] does in Python: the key keeps its position. -/
def setKey (fields : List (String × JValue)) (k : String) (v : JValue) : List (String × JValue) :=
  fields.map (fun p => if p.1 == k then (k, v) else p)

/-- The five pops data[module]["doc"].pop(k, None), for k = filename, author,
    notes, examples, return, applied in source order to the "doc" mapping. -/
def stripDocFields (docfields : List (String × JValue)) : List (String × JValue) :=
  popKey (popKey (popKey (popKey (popKey docfields
    "filename") "author") "notes") "examples") "return"

/-- The field-stripping block of dump_module_doc: the five pops performed on
    the parsed document.  Python mutates data in place; here the updated
    document is returned.  A shape for which the Python expression
    data[module]["doc"] raises (missing key, or a non-dict where a dict is
    indexed) is returned as none: that exception is not a
    subprocess.CalledProcessError, so dump_module_doc does not catch it. -/
def sanitizeModuleDoc (data : JValue) (module : String) : Option JValue :=
  match data with
  | JValue.obj fields =>
    match lookupKey fields module with
    | some (JValue.obj subfields) =>
      match lookupKey subfields "doc" with
      | some (JValue.obj docfields) =>
        some (JValue.obj (setKey fields module (JValue.obj (setKey subfields "doc"
          (JValue.obj (stripDocFields docfields))))))
      | _ => none
    | _ => none
  | _ => none

/-- The five field names stripped from the "doc" section. -/
def strippedFields : List String := ["filename", "author", "notes", "examples", "return"]

/-- Outcome of subprocess.check_output(["ansible-doc", "-j", module],
    universal_newlines=True): the captured standard output on exit status
    zero, or the CalledProcessError raised for a non-zero exit status. -/
inductive ToolOutcome where
  | success (stdout : String)
  | calledProcessError (returncode : Int)

/-- The notice printed when a module is skipped. -/
def skipMessage (module : String) : String :=
  "Module " ++ module ++ " skipped as it failed to export documentation."

/-- The output path f"data/modules/(module).json". -/
def modulePath (module : String) : String :=
  "data/modules/" ++ module ++ ".json"

/-- Observable effects of one dump_module_doc call: ret is the value the
    Python function returns (none when an uncaught exception escapes, so the
    function never reaches its return statement), printed the lines written
    by print, writes the files written as (path, content) pairs. -/
structure DumpEffects where
  ret : Option String
  printed : List String
  writes : List (String × String)

/-- Embedding of dump_module_doc from src/src/ansibleschemas/__main__.py.
    json.loads is the Python standard library's JSON parser, modelled as the
    parameter loads, returning none where it raises JSONDecodeError; tool is
    the outcome of the subprocess call.  Only
    subprocess.CalledProcessError is caught by the except clause; a parse or
    key failure (loads = none, or sanitizeModuleDoc = none) escapes, which is
    modelled as ret = none with no print and no write.  On the success path
    the two file.write calls on the single opened file produce one file whose
    content is the serialized document followed by a newline. -/
def dump_module_doc (loads : String → Option JValue) (tool : ToolOutcome)
    (module : String) : DumpEffects :=
  match tool with
  | ToolOutcome.calledProcessError _ =>
      { ret := some module, printed := [skipMessage module], writes := [] }
  | ToolOutcome.success stdout =>
    match loads stdout with
    | none => { ret := none, printed := [], writes := [] }
    | some data =>
      match sanitizeModuleDoc data module with
      | none => { ret := none, printed := [], writes := [] }
      | some data2 =>
        { ret := some module, printed := [],
          writes := [(modulePath module, jsonDumps data2 ++ "\n")] }

/-- Flat file-system model: an association list from path to file content. -/
def FS : Type := List (String × String)

/-- Content of the file at path p, if it exists. -/
def fsRead (fs : FS) (p : String) : Option String :=
  (List.find? (fun e => e.1 == p) fs).map (fun e => e.2)

/-- Python open(p, "w") followed by writing c: truncates any existing file at
    p and leaves c as its content. -/
def fsWrite (fs : FS) (p : String) (c : String) : FS :=
  (p, c) :: List.filter (fun e => !(e.1 == p)) fs

/-- Leading-prefix match on character lists; none when the prefix does not
    match, otherwise the remaining characters. -/
def stripPre : List Char → List Char → Option (List Char)
  | [], s => some s
  | _ :: _, [] => none
  | p :: ps, c :: cs => if p == c then stripPre ps cs else none

/-- Whether glob.glob("data/modules/*.json") matches path p: p lives directly
    in data/modules (no further slash), ends in ".json", and — per glob's
    hidden-file rule — its filename does not start with a dot. -/
def isModuleArtifact (p : String) : Bool :=
  match stripPre ("data/modules/".data) p.data with
  | some f =>
      (match f with
       | [] => false
       | c :: _ => !(c == '.'))
      && List.isPrefixOf (".json".data.reverse) f.reverse && !(f.contains '/')
  | none => false

/-- The reset step of doc_dump: glob.glob("data/modules/*.json") followed by
    os.remove on every match, i.e. exactly the non-matching files remain. -/
def resetOutputDir (fs : FS) : FS :=
  List.filter (fun e => !(isModuleArtifact e.1)) fs

/-- State of one doc_dump run: the file system, the printed lines, the local
    results list the for-loop appends to, the progress counter, whether an
    uncaught worker exception aborted the run, and ret — the value doc_dump
    returns.  The function is annotated -> None and has no return statement,
    so ret stays none; the type Option (List String) records that the
    collected results list is the value it could have returned but does not. -/
structure OrchOutcome where
  fs : FS
  printed : List String
  results : List String
  progressCount : Nat
  raised : Bool
  ret : Option (List String)

/-- Apply the file writes of one extraction to the file system. -/
def applyEffects (fs : FS) (eff : DumpEffects) : FS :=
  eff.writes.foldl (fun f w => fsWrite f w.1 w.2) fs

/-- The consumption loop of doc_dump: for result in pool.imap(dump_module_doc,
    modules): results.append(result); progress.advance(task_id).  Results are
    consumed in input order; when a worker's dump_module_doc raises (ret =
    none), pool.imap re-raises at that iteration and doc_dump aborts. -/
def docDumpLoop (loads : String → Option JValue) (tool : String → ToolOutcome) :
    List String → OrchOutcome → OrchOutcome
  | [], st => st
  | m :: rest, st =>
    let eff := dump_module_doc loads (tool m) m
    match eff.ret with
    | none =>
      { st with
        fs := applyEffects st.fs eff
        printed := st.printed ++ eff.printed
        raised := true
        ret := none }
    | some r =>
      docDumpLoop loads tool rest
        { st with
          fs := applyEffects st.fs eff
          printed := st.printed ++ eff.printed
          results := st.results ++ [r]
          progressCount := st.progressCount + 1 }

/-- Embedding of doc_dump from src/src/ansibleschemas/__main__.py.  The
    module list is the parameter modules: the source obtains it from
    ansible_modules() in ansibleschemas/api.py, a collaborator module of this
    repository that only supplies the finite name sequence.  First every
    existing data/modules/*.json artifact is removed, then the modules are
    dispatched to dump_module_doc and the per-module results collected. -/
def doc_dump (loads : String → Option JValue) (tool : String → ToolOutcome)
    (modules : List String) (fs0 : FS) : OrchOutcome :=
  docDumpLoop loads tool modules
    { fs := resetOutputDir fs0, printed := [], results := [],
      progressCount := 0, raised := false, ret := none }

/- Helper lemmas about the dictionary and file-system operations. -/

theorem lookupKey_popKey_self (fields : List (String × JValue)) (k : String) :
    lookupKey (popKey fields k) k = none := by
  simp [lookupKey, popKey, List.find?_filter]

theorem lookupKey_popKey_ne (fields : List (String × JValue)) (k k' : String)
    (h : k' ≠ k) : lookupKey (popKey fields k) k' = lookupKey fields k' := by
  induction fields with
  | nil => rfl
  | cons p rest ih =>
    by_cases hp : p.1 = k
    · have hp' : ¬ p.1 = k' := by
        intro e
        exact h (e ▸ hp)
      have hk : ¬ k = k' := fun e => h e.symm
      simpa [popKey, lookupKey, List.filter_cons, List.find?_cons, hp, hp', hk, h] using ih
    · by_cases hq : p.1 = k'
      · simp [popKey, lookupKey, List.filter_cons, List.find?_cons, hp, hq, h]
      · simpa [popKey, lookupKey, List.filter_cons, List.find?_cons, hp, hq, h] using ih

theorem lookupKey_setKey_ne (fields : List (String × JValue)) (k k' : String)
    (v : JValue) (h : k' ≠ k) :
    lookupKey (setKey fields k v) k' = lookupKey fields k' := by
  induction fields with
  | nil => rfl
  | cons p rest ih =>
    by_cases hp : p.1 = k
    · have hk : ¬ k = k' := fun e => h e.symm
      simpa [setKey, lookupKey, List.find?_cons, hp, hk, h] using ih
    · by_cases hq : p.1 = k'
      · simp [setKey, lookupKey, List.find?_cons, hp, hq, h]
      · simpa [setKey, lookupKey, List.find?_cons, hp, hq, h] using ih

theorem lookupKey_setKey_self (fields : List (String × JValue)) (k : String)
    (v : JValue) (h : (lookupKey fields k).isSome = true) :
    lookupKey (setKey fields k v) k = some v := by
  induction fields with
  | nil => simp [lookupKey] at h
  | cons p rest ih =>
    by_cases hp : p.1 = k
    · simp [setKey, lookupKey, List.find?_cons, hp]
    · have h' : (lookupKey rest k).isSome = true := by
        simpa [lookupKey, List.find?_cons, hp] using h
      simpa [setKey, lookupKey, List.find?_cons, hp] using ih h'

theorem fsRead_fsWrite_self (fs : FS) (p c : String) :
    fsRead (fsWrite fs p c) p = some c := by
  simp [fsRead, fsWrite, List.find?_cons]

theorem fsRead_fsWrite_ne (fs : FS) (p c q : String) (h : q ≠ p) :
    fsRead (fsWrite fs p c) q = fsRead fs q := by
  have hp : p ≠ q := fun e => h e.symm
  induction fs with
  | nil => simp [fsRead, fsWrite, List.find?_cons, hp]
  | cons e rest ih =>
    by_cases he : e.1 = p
    · simpa [fsRead, fsWrite, List.filter_cons, List.find?_cons, he, hp] using ih
    · by_cases hq : e.1 = q
      · simp [fsRead, fsWrite, List.filter_cons, List.find?_cons, he, hq, hp, h]
      · simpa [fsRead, fsWrite, List.filter_cons, List.find?_cons, he, hq, hp, h] using ih

theorem modulePath_inj (a b : String) (h : modulePath a = modulePath b) : a = b := by
  have hd := congrArg String.data h
  simp only [modulePath, String.data_append, List.append_assoc] at hd
  have h2 := List.append_cancel_left hd
  have h3 := List.append_cancel_right h2
  cases a
  cases b
  exact congrArg String.mk h3

theorem dump_module_doc_ret (loads : String → Option JValue) (tool : ToolOutcome)
    (module : String) :
    (dump_module_doc loads tool module).ret = none ∨
    (dump_module_doc loads tool module).ret = some module := by
  cases tool with
  | calledProcessError c =>
    right
    rfl
  | success stdout =>
    cases hl : loads stdout with
    | none =>
      left
      simp [dump_module_doc, hl]
    | some data =>
      cases hs : sanitizeModuleDoc data module with
      | none =>
        left
        simp [dump_module_doc, hl, hs]
      | some data2 =>
        right
        simp [dump_module_doc, hl, hs]

theorem dump_module_doc_writes (loads : String → Option JValue) (tool : ToolOutcome)
    (module : String) :
    (dump_module_doc loads tool module).writes = [] ∨
    ∃ c, (dump_module_doc loads tool module).writes = [(modulePath module, c)] := by
  cases tool with
  | calledProcessError c =>
    left
    rfl
  | success stdout =>
    cases hl : loads stdout with
    | none =>
      left
      simp [dump_module_doc, hl]
    | some data =>
      cases hs : sanitizeModuleDoc data module with
      | none =>
        left
        simp [dump_module_doc, hl, hs]
      | some data2 =>
        right
        exact ⟨jsonDumps data2 ++ "\n", by simp [dump_module_doc, hl, hs]⟩

theorem fsRead_reset (fs : FS) (p : String) (hp : isModuleArtifact p = true) :
    fsRead (resetOutputDir fs) p = none := by
  induction fs with
  | nil => rfl
  | cons e rest ih =>
    by_cases ha : isModuleArtifact e.1 = true
    · simpa [resetOutputDir, List.filter_cons, ha] using ih
    · have hep : e.1 ≠ p := by
        intro h
        exact ha (h ▸ hp)
      simpa [resetOutputDir, fsRead, List.filter_cons, List.find?_cons, ha, hep] using ih

theorem docDumpLoop_results (loads : String → Option JValue) (tool : String → ToolOutcome)
    (ms : List String) (st : OrchOutcome)
    (h : ∀ m ∈ ms, ((dump_module_doc loads (tool m) m).ret).isSome = true) :
    (docDumpLoop loads tool ms st).results = st.results ++ ms ∧
    (docDumpLoop loads tool ms st).ret = st.ret := by
  induction ms generalizing st with
  | nil => simp [docDumpLoop]
  | cons m rest ih =>
    have hm : ((dump_module_doc loads (tool m) m).ret).isSome = true := h m (by simp)
    have hrest : ∀ m' ∈ rest, ((dump_module_doc loads (tool m') m').ret).isSome = true :=
      fun m' hm' => h m' (by simp [hm'])
    rcases dump_module_doc_ret loads (tool m) m with hn | hs
    · rw [hn] at hm
      simp at hm
    · simp only [docDumpLoop]
      rw [hs]
      refine ⟨?_, ?_⟩
      · rw [(ih _ hrest).1]
        simp
      · rw [(ih _ hrest).2]

theorem docDumpLoop_raised (loads : String → Option JValue) (tool : String → ToolOutcome)
    (ms : List String) (st : OrchOutcome)
    (h : ∀ m ∈ ms, ((dump_module_doc loads (tool m) m).ret).isSome = true) :
    (docDumpLoop loads tool ms st).raised = st.raised := by
  induction ms generalizing st with
  | nil => rfl
  | cons m rest ih =>
    rcases dump_module_doc_ret loads (tool m) m with hn | hs
    · have hm := h m (by simp)
      rw [hn] at hm
      simp at hm
    · simp only [docDumpLoop]
      rw [hs]
      exact ih _ (fun m' hm' => h m' (by simp [hm']))

theorem docDumpLoop_fs_none (loads : String → Option JValue) (tool : String → ToolOutcome)
    (ms : List String) (st : OrchOutcome) (q : String)
    (hq : fsRead st.fs q = none) (hne : ∀ m ∈ ms, q ≠ modulePath m) :
    fsRead (docDumpLoop loads tool ms st).fs q = none := by
  induction ms generalizing st with
  | nil => simpa [docDumpLoop] using hq
  | cons m rest ih =>
    have hq2 : fsRead (applyEffects st.fs (dump_module_doc loads (tool m) m)) q = none := by
      rcases dump_module_doc_writes loads (tool m) m with hw | ⟨c, hw⟩
      · simpa [applyEffects, hw] using hq
      · simp only [applyEffects, hw, List.foldl_cons, List.foldl_nil]
        rw [fsRead_fsWrite_ne _ _ _ _ (hne m (by simp))]
        exact hq
    have hne2 : ∀ m' ∈ rest, q ≠ modulePath m' := fun m' hm' => hne m' (by simp [hm'])
    rcases dump_module_doc_ret loads (tool m) m with hn | hs
    · simp only [docDumpLoop]
      rw [hn]
      exact hq2
    · simp only [docDumpLoop]
      rw [hs]
      exact ih _ hq2 hne2

theorem lookupKey_stripDocFields_stripped (docfields : List (String × JValue))
    (k : String) (hk : k ∈ strippedFields) :
    lookupKey (stripDocFields docfields) k = none := by
  simp only [strippedFields, List.mem_cons, List.not_mem_nil, or_false] at hk
  simp only [stripDocFields]
  rcases hk with rfl | rfl | rfl | rfl | rfl
  · rw [lookupKey_popKey_ne _ _ _ (by decide), lookupKey_popKey_ne _ _ _ (by decide),
      lookupKey_popKey_ne _ _ _ (by decide), lookupKey_popKey_ne _ _ _ (by decide)]
    exact lookupKey_popKey_self _ _
  · rw [lookupKey_popKey_ne _ _ _ (by decide), lookupKey_popKey_ne _ _ _ (by decide),
      lookupKey_popKey_ne _ _ _ (by decide)]
    exact lookupKey_popKey_self _ _
  · rw [lookupKey_popKey_ne _ _ _ (by decide), lookupKey_popKey_ne _ _ _ (by decide)]
    exact lookupKey_popKey_self _ _
  · rw [lookupKey_popKey_ne _ _ _ (by decide)]
    exact lookupKey_popKey_self _ _
  · exact lookupKey_popKey_self _ _

theorem lookupKey_stripDocFields_other (docfields : List (String × JValue))
    (k : String) (hk : k ∉ strippedFields) :
    lookupKey (stripDocFields docfields) k = lookupKey docfields k := by
  simp only [strippedFields, List.mem_cons, List.not_mem_nil, or_false, not_or] at hk
  obtain ⟨n1, n2, n3, n4, n5⟩ := hk
  simp only [stripDocFields]
  rw [lookupKey_popKey_ne _ _ _ n5, lookupKey_popKey_ne _ _ _ n4,
    lookupKey_popKey_ne _ _ _ n3, lookupKey_popKey_ne _ _ _ n2,
    lookupKey_popKey_ne _ _ _ n1]

/- Concrete collaborators used to exercise the theorems on closed inputs. -/

/-- A tool whose invocation always exits with status zero and prints out. -/
def toolOk (out : String) : String → ToolOutcome := fun _ => ToolOutcome.success out

/-- A json.loads behaviour that rejects every output (JSONDecodeError). -/
def loadsFailing : String → Option JValue := fun _ => none

/-- A json.loads behaviour that parses every output as the empty object,
    which lacks the module key. -/
def loadsKeyless : String → Option JValue := fun _ => some (JValue.obj [])

/-- Sample "doc" section of a raw module document. -/
def sampleDocFields : List (String × JValue) :=
  [("filename", JValue.str "/p/foo.py"), ("short_description", JValue.str "d")]

/-- Sample module entry holding the sample "doc" section. -/
def sampleSubFields : List (String × JValue) := [("doc", JValue.obj sampleDocFields)]

/-- Sample top level of a raw module document for the module "foo". -/
def sampleFields : List (String × JValue) := [("foo", JValue.obj sampleSubFields)]

/-- The sample raw document. -/
def sampleRawDoc : JValue := JValue.obj sampleFields

/-- The sample document after stripping, with "filename" removed. -/
def sampleCleanDoc : JValue :=
  JValue.obj [("foo", JValue.obj [("doc", JValue.obj
    [("short_description", JValue.str "d")])])]

/-- A json.loads behaviour that parses every output as sampleRawDoc. -/
def loadsSample : String → Option JValue := fun _ => some sampleRawDoc

/-- A json.loads behaviour whose parsed document carries entries for the two
    modules bar and foo. -/
def loadsTwo : String → Option JValue := fun _ =>
  some (JValue.obj [("bar", JValue.obj [("doc", JValue.obj [])]),
    ("foo", JValue.obj [("doc", JValue.obj [])])])

/- The claims. -/

/-- C1: map_type maps every source type tag of the enumerated set to exactly
    the canonical tag of the fixed table: str, filename, path, raw and sid to
    string; list to array; bool to boolean; int to integer; dict, jsonarg and
    json to object; float to number. -/
theorem C1_map_type_table :
    map_type "str" = Except.ok "string" ∧
    map_type "filename" = Except.ok "string" ∧
    map_type "path" = Except.ok "string" ∧
    map_type "raw" = Except.ok "string" ∧
    map_type "sid" = Except.ok "string" ∧
    map_type "list" = Except.ok "array" ∧
    map_type "bool" = Except.ok "boolean" ∧
    map_type "int" = Except.ok "integer" ∧
    map_type "dict" = Except.ok "object" ∧
    map_type "jsonarg" = Except.ok "object" ∧
    map_type "json" = Except.ok "object" ∧
    map_type "float" = Except.ok "number" :=
  ⟨rfl, rfl, rfl, rfl, rfl, rfl, rfl, rfl, rfl, rfl, rfl, rfl⟩

/-- C2: for every input string outside the twelve-tag enumeration, map_type
    fails with the unsupported-type error whose message names the offending
    tag; the equation to Except.error in particular rules out any silently
    substituted canonical tag. -/
theorem C2_map_type_unsupported (s : String) (h : s ∉ ansibleTypeTags) :
    map_type s
      = Except.error ("Unable to map ansible type " ++ s ++ " to JSON Schema type.") := by
  simp only [ansibleTypeTags, List.mem_cons, List.not_mem_nil, or_false, not_or] at h
  obtain ⟨h1, h2, h3, h4, h5, h6, h7, h8, h9, h10, h11, h12⟩ := h
  simp [map_type, h1, h2, h3, h4, h5, h6, h7, h8, h9, h10, h11, h12]

theorem C2_witness :
    map_type "binary"
      = Except.error ("Unable to map ansible type " ++ "binary" ++ " to JSON Schema type.") :=
  C2_map_type_unsupported "binary" (by decide)

/-- C3: when the ansible-doc invocation terminates with a non-zero status
    (subprocess.CalledProcessError), dump_module_doc prints the human-readable
    skip notice naming the module, writes no file, and returns normally with
    the module's name instead of letting the exception escape; moreover every
    invocation writes at most one file and never both prints a skip notice
    and writes a file. -/
theorem C3_tool_failure_skipped (loads : String → Option JValue) (module : String)
    (code : Int) :
    ((dump_module_doc loads (ToolOutcome.calledProcessError code) module).printed
        = [skipMessage module] ∧
      (dump_module_doc loads (ToolOutcome.calledProcessError code) module).writes = [] ∧
      (dump_module_doc loads (ToolOutcome.calledProcessError code) module).ret
        = some module) ∧
    (∀ tool, (dump_module_doc loads tool module).writes.length ≤ 1) ∧
    (∀ tool, (dump_module_doc loads tool module).writes = [] ∨
      (dump_module_doc loads tool module).printed = []) := by
  refine ⟨⟨rfl, rfl, rfl⟩, ?_, ?_⟩
  · intro tool
    rcases dump_module_doc_writes loads tool module with hw | ⟨c, hw⟩
    · simp [hw]
    · simp [hw]
  · intro tool
    cases tool with
    | calledProcessError c =>
      left
      rfl
    | success stdout =>
      right
      cases hl : loads stdout with
      | none => simp [dump_module_doc, hl]
      | some data =>
        cases hs : sanitizeModuleDoc data module with
        | none => simp [dump_module_doc, hl, hs]
        | some data2 => simp [dump_module_doc, hl, hs]

/-- C4 (counterexample): with a tool output that json.loads rejects — the
    concrete json.loads behaviour loadsFailing stands for what json.loads
    does to the non-JSON text "not json" — and likewise with parsed output
    that lacks the module key, dump_module_doc neither returns (ret = none:
    the exception escapes, as only subprocess.CalledProcessError is caught)
    nor logs a skip notice, contradicting the claim that this case is
    treated identically to a tool-invocation failure. -/
theorem C4_counterexample :
    ((dump_module_doc loadsFailing (ToolOutcome.success "not json") "foo").ret = none ∧
      (dump_module_doc loadsFailing (ToolOutcome.success "not json") "foo").printed = []) ∧
    ((dump_module_doc loadsKeyless (ToolOutcome.success "\x7b\x7d") "foo").ret = none ∧
      (dump_module_doc loadsKeyless (ToolOutcome.success "\x7b\x7d") "foo").printed = []) :=
  ⟨⟨rfl, rfl⟩, ⟨rfl, rfl⟩⟩

/-- C4 (amended): when the tool exits with status zero but its output is not
    valid JSON, or its parsed form lacks the module key or the "doc" sub-key
    (or holds a non-mapping there), the JSONDecodeError / KeyError /
    TypeError escapes dump_module_doc uncaught — no skip notice is printed,
    no file is written, and the function never reaches its return statement;
    only a non-zero exit status is handled as a recoverable skip. -/
theorem C4_parse_failure_raises (loads : String → Option JValue) (stdout module : String)
    (h : loads stdout = none ∨
      ∃ data, loads stdout = some data ∧ sanitizeModuleDoc data module = none) :
    dump_module_doc loads (ToolOutcome.success stdout) module
      = { ret := none, printed := [], writes := [] } := by
  rcases h with hl | ⟨data, hl, hs⟩
  · simp [dump_module_doc, hl]
  · simp [dump_module_doc, hl, hs]

theorem C4_witness :
    dump_module_doc loadsFailing (ToolOutcome.success "not json") "foo"
      = { ret := none, printed := [], writes := [] } :=
  C4_parse_failure_raises loadsFailing "not json" "foo" (Or.inl rfl)

/-- C5: sanitization removes exactly the five fields filename, author, notes,
    examples and return from the module's "doc" sub-mapping — a missing field
    is a per-field no-op, since the hypotheses only require the mapping
    shapes, not the fields' presence — while every other field keeps its
    value: the doc fields outside the five, the module entry's fields other
    than "doc", and the top-level fields other than the module's. -/
theorem C5_sanitize_frame (fields subfields docfields : List (String × JValue))
    (module : String)
    (hm : lookupKey fields module = some (JValue.obj subfields))
    (hd : lookupKey subfields "doc" = some (JValue.obj docfields)) :
    ∃ fields2, sanitizeModuleDoc (JValue.obj fields) module = some (JValue.obj fields2) ∧
      (∀ k, k ≠ module → lookupKey fields2 k = lookupKey fields k) ∧
      ∃ subfields2, lookupKey fields2 module = some (JValue.obj subfields2) ∧
        (∀ k, k ≠ "doc" → lookupKey subfields2 k = lookupKey subfields k) ∧
        ∃ docfields2, lookupKey subfields2 "doc" = some (JValue.obj docfields2) ∧
          (∀ k, k ∈ strippedFields → lookupKey docfields2 k = none) ∧
          (∀ k, k ∉ strippedFields → lookupKey docfields2 k = lookupKey docfields k) := by
  have hms : (lookupKey fields module).isSome = true := by
    rw [hm]
    rfl
  have hds : (lookupKey subfields "doc").isSome = true := by
    rw [hd]
    rfl
  refine ⟨setKey fields module (JValue.obj (setKey subfields "doc"
      (JValue.obj (stripDocFields docfields)))), ?_, ?_,
    setKey subfields "doc" (JValue.obj (stripDocFields docfields)), ?_, ?_,
    stripDocFields docfields, ?_, ?_, ?_⟩
  · simp only [sanitizeModuleDoc, hm, hd]
  · intro k hk
    exact lookupKey_setKey_ne fields module k _ hk
  · exact lookupKey_setKey_self fields module _ hms
  · intro k hk
    exact lookupKey_setKey_ne subfields "doc" k _ hk
  · exact lookupKey_setKey_self subfields "doc" _ hds
  · intro k hk
    exact lookupKey_stripDocFields_stripped docfields k hk
  · intro k hk
    exact lookupKey_stripDocFields_other docfields k hk

theorem C5_witness :
    ∃ fields2,
      sanitizeModuleDoc (JValue.obj sampleFields) "foo" = some (JValue.obj fields2) ∧
      (∀ k, k ≠ "foo" → lookupKey fields2 k = lookupKey sampleFields k) ∧
      ∃ subfields2, lookupKey fields2 "foo" = some (JValue.obj subfields2) ∧
        (∀ k, k ≠ "doc" → lookupKey subfields2 k = lookupKey sampleSubFields k) ∧
        ∃ docfields2, lookupKey subfields2 "doc" = some (JValue.obj docfields2) ∧
          (∀ k, k ∈ strippedFields → lookupKey docfields2 k = none) ∧
          (∀ k, k ∉ strippedFields → lookupKey docfields2 k = lookupKey sampleDocFields k) :=
  C5_sanitize_frame sampleFields sampleSubFields sampleDocFields "foo" rfl rfl

/-- C6: a successful extraction writes exactly one artifact, at
    data/modules/<module>.json, whose content is the sanitized document
    rendered by jsonDumps — the embedding of json.dumps(data, indent=2,
    sort_keys=True), i.e. deterministic sorted key order and two-space
    indentation — followed by a trailing newline; applying the write to any
    prior file system overwrites whatever content that path held. -/
theorem C6_success_artifact (loads : String → Option JValue) (stdout module : String)
    (data data2 : JValue) (fs : FS)
    (h1 : loads stdout = some data) (h2 : sanitizeModuleDoc data module = some data2) :
    (dump_module_doc loads (ToolOutcome.success stdout) module).writes
      = [(modulePath module, jsonDumps data2 ++ "\n")] ∧
    fsRead (applyEffects fs (dump_module_doc loads (ToolOutcome.success stdout) module))
      (modulePath module) = some (jsonDumps data2 ++ "\n") := by
  have hw : (dump_module_doc loads (ToolOutcome.success stdout) module).writes
      = [(modulePath module, jsonDumps data2 ++ "\n")] := by
    simp [dump_module_doc, h1, h2]
  refine ⟨hw, ?_⟩
  simp only [applyEffects, hw, List.foldl_cons, List.foldl_nil]
  exact fsRead_fsWrite_self fs (modulePath module) (jsonDumps data2 ++ "\n")

theorem C6_witness :
    (dump_module_doc loadsSample (ToolOutcome.success "out") "foo").writes
      = [(modulePath "foo", jsonDumps sampleCleanDoc ++ "\n")] ∧
    fsRead (applyEffects [(modulePath "foo", "stale")]
        (dump_module_doc loadsSample (ToolOutcome.success "out") "foo"))
      (modulePath "foo") = some (jsonDumps sampleCleanDoc ++ "\n") :=
  C6_success_artifact loadsSample "out" "foo" sampleRawDoc sampleCleanDoc
    [(modulePath "foo", "stale")] rfl rfl

/-- C7: extraction of one module is deterministic in the tool interaction:
    two invocations on the same module name whose subprocess outcomes
    (captured standard output and exit status) coincide produce the same
    effects, in particular byte-identical file writes.  The embedded
    extractor consumes nothing besides the tool outcome, the module name and
    the fixed standard-library JSON parser, so equality of tool outcomes is
    the only hypothesis needed. -/
theorem C7_deterministic (loads : String → Option JValue) (module : String)
    (t1 t2 : ToolOutcome) (h : t1 = t2) :
    (dump_module_doc loads t1 module).writes = (dump_module_doc loads t2 module).writes ∧
    (dump_module_doc loads t1 module).printed = (dump_module_doc loads t2 module).printed ∧
    (dump_module_doc loads t1 module).ret = (dump_module_doc loads t2 module).ret := by
  subst h
  exact ⟨rfl, rfl, rfl⟩

theorem C7_witness :
    (dump_module_doc loadsSample (ToolOutcome.success "out") "foo").writes
      = (dump_module_doc loadsSample (ToolOutcome.success "out") "foo").writes ∧
    (dump_module_doc loadsSample (ToolOutcome.success "out") "foo").printed
      = (dump_module_doc loadsSample (ToolOutcome.success "out") "foo").printed ∧
    (dump_module_doc loadsSample (ToolOutcome.success "out") "foo").ret
      = (dump_module_doc loadsSample (ToolOutcome.success "out") "foo").ret :=
  C7_deterministic loadsSample "foo" (ToolOutcome.success "out")
    (ToolOutcome.success "out") rfl

/-- C8 (counterexample): a run over the one-module list ["foo"] that
    completes appends the one result "foo" to the local results list, yet the
    value doc_dump returns is None (ret = none): the function, annotated
    -> None and ending without a return statement, does not return the set of
    extraction results, so the returned value does not hold N = 1 results. -/
theorem C8_counterexample :
    (doc_dump loadsSample (toolOk "out") ["foo"] []).results = ["foo"] ∧
    (doc_dump loadsSample (toolOk "out") ["foo"] []).ret = none :=
  ⟨rfl, rfl⟩

/-- C8 (amended): when every extraction completes (returns instead of
    raising), the consumption loop appends exactly one result per input
    module — each the module's own name, so the collected list is the input
    list itself and its count equals N — but doc_dump discards this list and
    returns None rather than the result set. -/
theorem C8_results_collected (loads : String → Option JValue) (tool : String → ToolOutcome)
    (modules : List String) (fs0 : FS)
    (h : ∀ m ∈ modules, ((dump_module_doc loads (tool m) m).ret).isSome = true) :
    (doc_dump loads tool modules fs0).results = modules ∧
    (doc_dump loads tool modules fs0).results.length = modules.length ∧
    (doc_dump loads tool modules fs0).ret = none := by
  simp only [doc_dump]
  refine ⟨?_, ?_, ?_⟩
  · rw [(docDumpLoop_results loads tool modules _ h).1]
    simp
  · rw [(docDumpLoop_results loads tool modules _ h).1]
    simp
  · rw [(docDumpLoop_results loads tool modules _ h).2]

theorem C8_witness :
    (doc_dump loadsTwo (toolOk "out") ["bar", "foo"] []).results = ["bar", "foo"] ∧
    (doc_dump loadsTwo (toolOk "out") ["bar", "foo"] []).results.length
      = (["bar", "foo"] : List String).length ∧
    (doc_dump loadsTwo (toolOk "out") ["bar", "foo"] []).ret = none :=
  C8_results_collected loadsTwo (toolOk "out") ["bar", "foo"] []
    (by
      intro m hm
      simp only [List.mem_cons, List.not_mem_nil, or_false] at hm
      rcases hm with rfl | rfl
      · rfl
      · rfl)

/-- C9: doc_dump deletes every pre-existing data/modules/*.json artifact
    before the extraction loop runs — doc_dump is the loop applied to the
    reset file system, on which every glob-matched path is already gone — and
    consequently, after a completed run, no file remains at the artifact path
    of a stale module that is absent from the input list (the loop only ever
    writes the artifact paths of listed modules). -/
theorem C9_reset_removes_stale (loads : String → Option JValue)
    (tool : String → ToolOutcome) (modules : List String) (fs0 : FS) (p m : String)
    (hp : isModuleArtifact p = true)
    (hm : isModuleArtifact (modulePath m) = true)
    (hnot : m ∉ modules)
    (hc : ∀ mi ∈ modules, ((dump_module_doc loads (tool mi) mi).ret).isSome = true) :
    fsRead (resetOutputDir fs0) p = none ∧
    (doc_dump loads tool modules fs0).raised = false ∧
    fsRead (doc_dump loads tool modules fs0).fs (modulePath m) = none := by
  refine ⟨fsRead_reset fs0 p hp, ?_, ?_⟩
  · simp only [doc_dump]
    rw [docDumpLoop_raised loads tool modules _ hc]
  · simp only [doc_dump]
    apply docDumpLoop_fs_none
    · exact fsRead_reset fs0 (modulePath m) hm
    · intro mi hmi heq
      rw [modulePath_inj m mi heq] at hnot
      exact hnot hmi

theorem C9_witness :
    fsRead (resetOutputDir [("data/modules/stale.json", "old")])
      "data/modules/stale.json" = none ∧
    (doc_dump loadsSample (toolOk "out") ["foo"]
        [("data/modules/stale.json", "old")]).raised = false ∧
    fsRead (doc_dump loadsSample (toolOk "out") ["foo"]
        [("data/modules/stale.json", "old")]).fs (modulePath "stale") = none :=
  C9_reset_removes_stale loadsSample (toolOk "out") ["foo"]
    [("data/modules/stale.json", "old")] "data/modules/stale.json" "stale"
    rfl rfl (by decide)
    (by
      intro mi hmi
      simp only [List.mem_cons, List.not_mem_nil, or_false] at hmi
      subst hmi
      rfl)

/-- C10: whenever dump_module_doc completes without an unhandled exception,
    the value it returns is exactly its input module name — the single
    return statement sits after the try/except block, so the skipped case
    returns the same value as the success case and the caller cannot tell
    the two apart from the returned value. -/
theorem C10_returns_module_name (loads : String → Option JValue) (module : String) :
    (∀ tool, (dump_module_doc loads tool module).ret = none ∨
      (dump_module_doc loads tool module).ret = some module) ∧
    (∀ code, (dump_module_doc loads (ToolOutcome.calledProcessError code) module).ret
      = some module) :=
  ⟨fun tool => dump_module_doc_ret loads tool module, fun _ => rfl⟩
